import Mathlib

/-
Verification of the rule-based bank-statement extraction and validation core
(`excel_to_json_converter.py`, `validators/balance_validator.py`,
`validators/validation_models.py`) against its natural-language specification.

The Python code is shallowly embedded: cells and dict values become the
inductive `Value`, Python `float`/`Decimal` arithmetic becomes exact rational
arithmetic (`ℚ`), fallible code returns `Except PyErr`, and every function is
translated from the source file it names.
-/

set_option maxRecDepth 4000

attribute [local semireducible] Rat.add Rat.mul Rat.sub Rat.inv Rat.ofScientific

/-- A Python exception escaping a function. Only the kinds the embedded code
can actually raise are modelled. -/
inductive PyErr where
  | invalidOperation
  | typeError
  | attributeError
  deriving DecidableEq

/-- A proleptic-Gregorian calendar date, the model of Python `datetime`
restricted to its date part (the embedded code never uses times). -/
structure YMD where
  year : Nat
  month : Nat
  day : Nat
  deriving DecidableEq

/-- Leap-year rule used by Python `datetime`. -/
def isLeapYear (y : Nat) : Bool :=
  y % 4 == 0 && (y % 100 != 0 || y % 400 == 0)

/-- Days in a month, as checked by the `datetime` constructor. -/
def daysInMonth (y m : Nat) : Nat :=
  if m = 2 then (if isLeapYear y then 29 else 28)
  else if m = 4 ∨ m = 6 ∨ m = 9 ∨ m = 11 then 30
  else 31

/-- Whether `datetime(year, month, day)` succeeds. -/
def validYMD (d : YMD) : Bool :=
  1 ≤ d.year && d.year ≤ 9999 && 1 ≤ d.month && d.month ≤ 12 &&
    1 ≤ d.day && d.day ≤ daysInMonth d.year d.month

/-- Zero-pad a numeral to two digits, as `%m`/`%d` in `strftime`. -/
def pad2 (n : Nat) : String :=
  if n < 10 then "0" ++ toString n else toString n

/-- Zero-pad a numeral to four digits, as `%Y` in `strftime`. -/
def pad4 (n : Nat) : String :=
  if n < 10 then "000" ++ toString n
  else if n < 100 then "00" ++ toString n
  else if n < 1000 then "0" ++ toString n
  else toString n

/-- `strftime('%Y-%m-%d')`. -/
def fmtYMD (d : YMD) : String :=
  pad4 d.year ++ "-" ++ pad2 d.month ++ "-" ++ pad2 d.day

/-- A cell of the input grid or a value of a statement dictionary:
`vnone` models both Python `None` and pandas `NaN`, `num` a Python number,
`str` a string, `dt` a structured date/timestamp value. -/
inductive Value where
  | vnone
  | num (q : ℚ)
  | str (s : String)
  | dt (d : YMD)
  deriving DecidableEq

/-- `pd.isna`. -/
def pdIsna : Value → Bool
  | .vnone => true
  | _ => false

/-- Whether the character list `p` is a prefix of `s`. -/
def hasPrefixChars : List Char → List Char → Bool
  | [], _ => true
  | _ :: _, [] => false
  | p :: ps, c :: cs => p = c && hasPrefixChars ps cs

/-- Whether the character list `p` occurs contiguously inside `s`. -/
def hasSubChars (p : List Char) : List Char → Bool
  | [] => p.isEmpty
  | c :: cs => hasPrefixChars p (c :: cs) || hasSubChars p cs

/-- Python `pat in s` for strings (substring containment). -/
def strContainsSub (s pat : String) : Bool :=
  hasSubChars pat.data s.data

/-- Python `str.replace` (non-overlapping, left to right), written with
explicit fuel so that it reduces inside the kernel. -/
def replaceFuel (pat rep : List Char) : Nat → List Char → List Char
  | 0, cs => cs
  | _ + 1, [] => []
  | fuel + 1, c :: cs =>
      if pat ≠ [] ∧ hasPrefixChars pat (c :: cs) then
        rep ++ replaceFuel pat rep fuel (List.drop (pat.length - 1) cs)
      else c :: replaceFuel pat rep fuel cs

/-- Python `str.replace(pat, rep)`. -/
def pyReplace (s pat rep : String) : String :=
  String.mk (replaceFuel pat.data rep.data (s.data.length + 1) s.data)

/-- ASCII whitespace stripped by Python `str.strip()`. -/
def isPySpace (c : Char) : Bool :=
  c = ' ' || c = '\t' || c = '\n' || c = '\r' || c = '\x0b' || c = '\x0c'

/-- Python `str.strip()`. -/
def pyStrip (s : String) : String :=
  String.mk (((s.data.dropWhile isPySpace).reverse.dropWhile isPySpace).reverse)

/-- Python `str.lower()`; the strings handled here are ASCII apart from the
rupee sign, which lowercasing leaves unchanged. -/
def pyLower (s : String) : String := String.mk (s.data.map Char.toLower)

/-- Python `str.upper()`. -/
def pyUpper (s : String) : String := String.mk (s.data.map Char.toUpper)

/-- Python `ch in s` for a single character. -/
def strContainsChar (s : String) (c : Char) : Bool := s.data.contains c

/-- Split a character list on a separator class; separators delimit possibly
empty groups, as `str.split` with an explicit separator does. -/
def splitChars (p : Char → Bool) : List Char → List (List Char)
  | [] => [[]]
  | c :: cs =>
      match splitChars p cs with
      | [] => [[c]]
      | g :: gs => if p c then [] :: g :: gs else (c :: g) :: gs

/-- Numeric value of a digit list (most significant first). -/
def natOfDigits (cs : List Char) : Nat :=
  cs.foldl (fun n c => n * 10 + (c.toNat - 48)) 0

/-- Split a character list at the first dot, if any. -/
def splitDot : List Char → List Char × Option (List Char)
  | [] => ([], Option.none)
  | '.' :: r => ([], some r)
  | c :: r => let p := splitDot r; (c :: p.1, p.2)

/-- Model of Python `float(str)` restricted to plain decimal literals: an
optional sign, integer digits, an optional fractional part, at least one
digit overall. Exponents, `inf`/`nan`, underscores and surrounding
whitespace are not modelled; binary floating point is modelled as exact
rational arithmetic. Returns `none` where `float` raises `ValueError`. -/
def pyFloatParse (s : String) : Option ℚ :=
  let p := match s.data with
    | '-' :: r => (true, r)
    | '+' :: r => (false, r)
    | r => (false, r)
  let ip := splitDot p.2
  let intPart := ip.1
  if ¬ intPart.all Char.isDigit then Option.none
  else
    match ip.2 with
    | Option.none =>
        if intPart.isEmpty then Option.none
        else
          let v : ℚ := (natOfDigits intPart : ℚ)
          some (if p.1 then -v else v)
    | some frac =>
        if ¬ frac.all Char.isDigit then Option.none
        else if intPart.isEmpty ∧ frac.isEmpty then Option.none
        else
          let v : ℚ :=
            (natOfDigits intPart : ℚ) + (natOfDigits frac : ℚ) / (10 : ℚ) ^ frac.length
          some (if p.1 then -v else v)

/-- Round a rational to the nearest integer, ties away from zero
(`decimal.ROUND_HALF_UP`). -/
def roundHalfUpZ (q : ℚ) : ℤ :=
  if 0 ≤ q then ⌊q + 1 / 2⌋ else -⌊-q + 1 / 2⌋

/-- `Decimal.quantize(Decimal('0.01'), rounding=ROUND_HALF_UP)`. -/
def quantize2 (q : ℚ) : ℚ :=
  (roundHalfUpZ (q * 100) : ℚ) / 100

/-- Round a rational to the nearest integer, ties to even
(Python `round`). -/
def roundHalfEvenZ (q : ℚ) : ℤ :=
  let f := ⌊q⌋
  let r := q - (f : ℚ)
  if r < 1 / 2 then f
  else if r > 1 / 2 then f + 1
  else if f % 2 = 0 then f else f + 1

/-- Python `round(x, 2)`, modelled on exact rationals (the binary-float
representation error of the real `round` is not modelled). -/
def pyRound2 (q : ℚ) : ℚ :=
  (roundHalfEvenZ (q * 100) : ℚ) / 100

/-- Rendering of a value by Python `str`, as used by the converter for
display text and keyword scans. Numbers are rendered as decimal digit
strings; the exact digits are irrelevant to every use in the source (keyword
containment checks and description text), so the fractional rendering of
`str(float)` is approximated by `num/den` digits. `NaN` renders as `"nan"`,
timestamps as their ISO form. -/
def pyStrDisp : Value → String
  | .vnone => "nan"
  | .num q => if q.den = 1 then toString q.num ++ ".0"
              else toString q.num ++ "/" ++ toString q.den
  | .str s => s
  | .dt d => fmtYMD d ++ " 00:00:00"

/-- The string cleaning of `ExcelToJSONConverter._parse_amount`: strip
commas and currency markers, then rewrite `(...)` parentheses into a leading
minus sign. -/
def cleanAmountStr (s : String) : String :=
  let s1 := pyStrip (pyReplace (pyReplace (pyReplace (pyReplace s "," "") "₹" "") "Rs" "") "INR" "")
  if strContainsChar s1 '(' then pyReplace (pyReplace s1 "(" "-") ")" "" else s1

/-- `ExcelToJSONConverter._parse_amount`: clean the string, treat
parentheses as negation, fall back to `0.0` on anything empty or
unparsable. A structured timestamp value is neither `NaN` nor numeric, and
`float(str(ts))` raises, so it yields `0.0`. -/
def parseAmount (v : Value) : ℚ :=
  match v with
  | .vnone => 0
  | .num q => q
  | .dt _ => 0
  | .str s =>
      let s2 := cleanAmountStr s
      if s2 = "" then 0
      else match pyFloatParse s2 with
        | some q => q
        | Option.none => 0

/-- Model of `pd.to_datetime(s, dayfirst=True)` restricted to plain numeric
dates with `-` or `/` separators and a four-digit year (year first, or
day-month-year otherwise). Textual months, two-digit years and the many other
layouts pandas accepts are not modelled here; the later stages of the
source's fallback chain cover the layouts the claims exercise. -/
def pdToDatetime (s : String) : Option YMD :=
  match splitChars (fun c => c == '-' || c == '/') s.data with
  | [a, b, c] =>
    if a.all Char.isDigit ∧ b.all Char.isDigit ∧ c.all Char.isDigit ∧
        ¬ a.isEmpty ∧ ¬ b.isEmpty ∧ ¬ c.isEmpty then
      let d : YMD :=
        if a.length = 4 then ⟨natOfDigits a, natOfDigits b, natOfDigits c⟩
        else if c.length = 4 then ⟨natOfDigits c, natOfDigits b, natOfDigits a⟩
        else ⟨0, 0, 0⟩
      if validYMD d then some d else Option.none
    else Option.none
  | _ => Option.none

/-- A 1-2 digit numeral in the range `lo..hi`, the model of the range-checked
digit groups in `strptime`'s `%d`/`%m` patterns. -/
def parseNum2 (lo hi : Nat) (cs : List Char) : Option Nat :=
  if (cs.length = 1 ∨ cs.length = 2) ∧ cs.all Char.isDigit then
    let n := natOfDigits cs
    if lo ≤ n ∧ n ≤ hi then some n else Option.none
  else Option.none

/-- A four-digit numeral, the model of `strptime`'s `%Y`. -/
def parseYear4 (cs : List Char) : Option Nat :=
  if cs.length = 4 ∧ cs.all Char.isDigit then some (natOfDigits cs) else Option.none

/-- `strptime` with format `%d<sep>%m<sep>%Y`. -/
def tryDMY (sep : Char) (s : String) : Option YMD :=
  match splitChars (· == sep) s.data with
  | [d, m, y] => do
      let dd ← parseNum2 1 31 d
      let mm ← parseNum2 1 12 m
      let yy ← parseYear4 y
      let r : YMD := ⟨yy, mm, dd⟩
      if validYMD r then some r else Option.none
  | _ => Option.none

/-- `strptime` with format `%m/%d/%Y`. -/
def tryMDY (s : String) : Option YMD :=
  match splitChars (· == '/') s.data with
  | [m, d, y] => do
      let mm ← parseNum2 1 12 m
      let dd ← parseNum2 1 31 d
      let yy ← parseYear4 y
      let r : YMD := ⟨yy, mm, dd⟩
      if validYMD r then some r else Option.none
  | _ => Option.none

/-- `strptime` with format `%Y-%m-%d`. -/
def tryYMDdash (s : String) : Option YMD :=
  match splitChars (· == '-') s.data with
  | [y, m, d] => do
      let yy ← parseYear4 y
      let mm ← parseNum2 1 12 m
      let dd ← parseNum2 1 31 d
      let r : YMD := ⟨yy, mm, dd⟩
      if validYMD r then some r else Option.none
  | _ => Option.none

def monthAbbrs : List String :=
  ["jan", "feb", "mar", "apr", "may", "jun", "jul", "aug", "sep", "oct", "nov", "dec"]

def monthFulls : List String :=
  ["january", "february", "march", "april", "may", "june",
   "july", "august", "september", "october", "november", "december"]

/-- `strptime` with format `%d-%b-%Y` or `%d-%B-%Y` (month-name matching in
`strptime` is case-insensitive). -/
def tryDMonY (names : List String) (s : String) : Option YMD :=
  match splitChars (· == '-') s.data with
  | [d, mon, y] => do
      let dd ← parseNum2 1 31 d
      let mi ← names.findIdx? (fun n => n = pyLower (String.mk mon))
      let yy ← parseYear4 y
      let r : YMD := ⟨yy, mi + 1, dd⟩
      if validYMD r then some r else Option.none
  | _ => Option.none

/-- `strptime` with format `%Y%m%d`, modelled as exactly eight digits. -/
def tryYmdCompact (s : String) : Option YMD :=
  let cs := s.data
  if cs.length = 8 ∧ cs.all Char.isDigit then
    let r : YMD := ⟨natOfDigits (cs.take 4), natOfDigits ((cs.drop 4).take 2),
                    natOfDigits (cs.drop 6)⟩
    if validYMD r then some r else Option.none
  else Option.none

/-- The source's explicit format list
`['%d-%m-%Y', '%m/%d/%Y', '%Y-%m-%d', '%d/%m/%Y', '%d-%b-%Y', '%d-%B-%Y', '%Y%m%d']`,
tried in order. -/
def tryFormatsList (s : String) : Option YMD :=
  (tryDMY '-' s) <|> (tryMDY s) <|> (tryYMDdash s) <|> (tryDMY '/' s) <|>
    (tryDMonY monthAbbrs s) <|> (tryDMonY monthFulls s) <|> (tryYmdCompact s)

/-- Take up to `n` leading digits (greedy). -/
def takeDigitsUpTo : Nat → List Char → List Char × List Char
  | 0, cs => ([], cs)
  | _ + 1, [] => ([], [])
  | n + 1, c :: cs =>
      if c.isDigit then
        let p := takeDigitsUpTo n cs
        (c :: p.1, p.2)
      else ([], c :: cs)

def isSepDash (c : Char) : Bool := c = '-' ∨ c = '/'

/-- Attempt the source's last-resort regex (one or two digits, a dash-or-slash
separator, one or two digits, a separator, two to four digits) at the head of
the list. Greedy matching without backtracking coincides with the regex here
because the separator class is disjoint from the digit class. -/
def matchDayPatHere (cs : List Char) : Option (List Char × List Char × List Char) :=
  let p1 := takeDigitsUpTo 2 cs
  if p1.1.isEmpty then Option.none else
  match p1.2 with
  | s1 :: r1 =>
    if ¬ isSepDash s1 then Option.none else
    let p2 := takeDigitsUpTo 2 r1
    if p2.1.isEmpty then Option.none else
    match p2.2 with
    | s2 :: r2 =>
      if ¬ isSepDash s2 then Option.none else
      let p3 := takeDigitsUpTo 4 r2
      if p3.1.length < 2 then Option.none else some (p1.1, p2.1, p3.1)
    | [] => Option.none
  | [] => Option.none

/-- `re.search` of the pattern above: first matching position wins. -/
def searchDayPat : List Char → Option (List Char × List Char × List Char)
  | [] => Option.none
  | c :: cs =>
      match matchDayPatHere (c :: cs) with
      | some r => some r
      | Option.none => searchDayPat cs

/-- The source's last-resort date extraction: regex search with a two-digit
year pivot at 50, then validity through the `datetime` constructor. -/
def regexDateFallback (s : String) : Option YMD :=
  match searchDayPat s.data with
  | some (d, m, y) =>
      let yearN :=
        if y.length = 2 then
          if natOfDigits y < 50 then 2000 + natOfDigits y else 1900 + natOfDigits y
        else natOfDigits y
      let r : YMD := ⟨yearN, natOfDigits m, natOfDigits d⟩
      if validYMD r then some r else Option.none
  | Option.none => Option.none

/-- `ExcelToJSONConverter._parse_date`: structured dates format directly;
strings are rejected when they contain header-like tokens, then run through
`pd.to_datetime`, the explicit format list, and the regex fallback.
A bare numeric cell is modelled as unparsable: `str(float)` carries a
trailing `.0`, which defeats every stage of the chain. -/
def parseDate (v : Value) : Option String :=
  match v with
  | .vnone => Option.none
  | .dt d => some (fmtYMD d)
  | .num _ => Option.none
  | .str s0 =>
    let s := pyStrip s0
    if ["date", "tran", "txn", "transaction"].any (fun k => strContainsSub (pyLower s) k) then
      Option.none
    else
      match pdToDatetime s with
      | some d => some (fmtYMD d)
      | Option.none =>
        match tryFormatsList s with
        | some d => some (fmtYMD d)
        | Option.none =>
          match regexDateFallback s with
          | some d => some (fmtYMD d)
          | Option.none => Option.none

def DATE_PATTERNS : List String :=
  ["date", "tran date", "txn date", "transaction date", "value date"]

def DESCRIPTION_PATTERNS : List String :=
  ["description", "narration", "particulars", "details", "transaction details"]

def DEBIT_PATTERNS : List String :=
  ["debit", "withdrawal", "dr", "amount withdrawn", "paid"]

def CREDIT_PATTERNS : List String :=
  ["credit", "deposit", "cr", "amount deposited", "received"]

def BALANCE_PATTERNS : List String :=
  ["balance", "closing balance", "available balance"]

def REFERENCE_PATTERNS : List String :=
  ["chq no", "cheque", "ref no", "reference", "transaction id"]

/-- The mapping from semantic column roles to column indices built by
`ExcelToJSONConverter._identify_structure` (a Python dict; an absent key is
`Option.none`). -/
structure ColumnMapping where
  date : Option Nat := Option.none
  description : Option Nat := Option.none
  debit : Option Nat := Option.none
  credit : Option Nat := Option.none
  balance : Option Nat := Option.none
  reference : Option Nat := Option.none
  deriving DecidableEq

/-- Whether a row's joined lowercased text contains a date, debit or credit
keyword (the header-row test of `_identify_structure`). -/
def headerKeywordHit (row : List Value) : Bool :=
  let rowText := String.intercalate " " (row.map (fun v => pyLower (pyStrDisp v)))
  (DATE_PATTERNS ++ DEBIT_PATTERNS ++ CREDIT_PATTERNS).any (fun p => strContainsSub rowText p)

/-- First row among the first ten whose text hits a header keyword; row 0
when none does. -/
def findHeaderRow (grid : List (List Value)) : Nat :=
  ((List.range (min 10 grid.length)).find? (fun idx => headerKeywordHit (grid.getD idx []))).getD 0

/-- One `elif` chain of `_identify_structure`: assign the column to the first
matching role; a later column overwrites an earlier assignment of the same
role (Python dict assignment). -/
def assignRole (acc : ColumnMapping) (h : String) (i : Nat) : ColumnMapping :=
  if DATE_PATTERNS.any (strContainsSub h) then { acc with date := some i }
  else if DESCRIPTION_PATTERNS.any (strContainsSub h) then { acc with description := some i }
  else if DEBIT_PATTERNS.any (strContainsSub h) then { acc with debit := some i }
  else if CREDIT_PATTERNS.any (strContainsSub h) then { acc with credit := some i }
  else if BALANCE_PATTERNS.any (strContainsSub h) then { acc with balance := some i }
  else if REFERENCE_PATTERNS.any (strContainsSub h) then { acc with reference := some i }
  else acc

/-- `ExcelToJSONConverter._identify_structure`. -/
def identifyStructure (grid : List (List Value)) : Nat × ColumnMapping :=
  let headerRow := findHeaderRow grid
  let headerVals := grid.getD headerRow []
  let mapping := headerVals.enum.foldl
    (fun acc p => assignRole acc (pyStrip (pyLower (pyStrDisp p.2))) p.1) {}
  (headerRow, mapping)

/-- One transaction as emitted by `_extract_transactions`. -/
structure Txn where
  date : String
  description : String
  debit : ℚ
  credit : ℚ
  balance : ℚ
  transaction_type : String
  reference_number : Option String
  deriving DecidableEq

/-- Outcome of one loop iteration of `_extract_transactions`. -/
inductive RowOutcome where
  | emit (t : Txn)
  | skipEmpty
  | skipNoDate
  | skipParseFail
  deriving DecidableEq

/-- `row.iloc[i]`. DataFrame rows are rectangular and each mapped index comes
from the header row of the same frame, so in the pipeline this access is
always in bounds; out-of-range indices default to `NaN`. -/
def cellAt (row : List Value) (i : Nat) : Value := row.getD i .vnone

/-- The loop body of `ExcelToJSONConverter._extract_transactions`: skip empty
rows, read the date from the mapped date column (column 0 when no date
column was mapped), skip rows with a missing or unparsable date, then parse
the remaining mapped cells and emit a transaction. -/
def processRow (m : ColumnMapping) (row : List Value) : RowOutcome :=
  if row.all (fun v => pdIsna v) then .skipEmpty
  else
    let dateValue := cellAt row (m.date.getD 0)
    if pdIsna dateValue then .skipNoDate
    else
      match parseDate dateValue with
      | Option.none => .skipParseFail
      | some parsedDate =>
        let description :=
          match m.description with
          | some c => if pdIsna (cellAt row c) then "" else pyStrDisp (cellAt row c)
          | Option.none => ""
        let debit := match m.debit with
          | some c => parseAmount (cellAt row c)
          | Option.none => 0
        let credit := match m.credit with
          | some c => parseAmount (cellAt row c)
          | Option.none => 0
        let balance := match m.balance with
          | some c => parseAmount (cellAt row c)
          | Option.none => 0
        let reference := match m.reference with
          | some c => if pdIsna (cellAt row c) then Option.none
                      else some (pyStrDisp (cellAt row c))
          | Option.none => Option.none
        .emit { date := parsedDate, description := pyStrip description,
                debit := debit, credit := credit, balance := balance,
                transaction_type := if credit > 0 then "credit" else "debit",
                reference_number := reference }

/-- The skip-reason tally of `_extract_transactions`. -/
structure SkipTally where
  empty_row : Nat := 0
  no_date : Nat := 0
  parse_fail : Nat := 0
  deriving DecidableEq

/-- Accumulation of one row outcome into the transaction list and tally. -/
def extractStep (m : ColumnMapping) (acc : List Txn × SkipTally) (row : List Value) :
    List Txn × SkipTally :=
  match processRow m row with
  | .emit t => (acc.1 ++ [t], acc.2)
  | .skipEmpty => (acc.1, { acc.2 with empty_row := acc.2.empty_row + 1 })
  | .skipNoDate => (acc.1, { acc.2 with no_date := acc.2.no_date + 1 })
  | .skipParseFail => (acc.1, { acc.2 with parse_fail := acc.2.parse_fail + 1 })

/-- `ExcelToJSONConverter._extract_transactions` over the rows below the
header: ordered emission plus the skip tally. -/
def extractTransactions (rows : List (List Value)) (m : ColumnMapping) :
    List Txn × SkipTally :=
  rows.foldl (extractStep m) ([], {})

/-- The summary block built by `ExcelToJSONConverter._calculate_summary`. -/
structure Summary where
  statement_period_from : Option String
  statement_period_to : Option String
  opening_balance : ℚ
  closing_balance : ℚ
  total_credits : ℚ
  total_debits : ℚ
  deriving DecidableEq

/-- `ExcelToJSONConverter._calculate_summary`: period bounds from the first
and last (truthy) transaction dates, totals summed over the sequence, the
opening balance back-solved from the first row and the closing balance taken
from the last row's stated balance. -/
def calculateSummary (txns : List Txn) : Summary :=
  match txns with
  | [] => ⟨Option.none, Option.none, 0, 0, 0, 0⟩
  | t0 :: rest =>
    let dates := ((t0 :: rest).filter (fun t => t.date ≠ "")).map (fun t => t.date)
    let totalCredits := ((t0 :: rest).map (fun t => t.credit)).sum
    let totalDebits := ((t0 :: rest).map (fun t => t.debit)).sum
    let opening := t0.balance - t0.credit + t0.debit
    let closing := ((t0 :: rest).getLastD t0).balance
    { statement_period_from := dates.head?,
      statement_period_to := dates.getLast?,
      opening_balance := pyRound2 opening,
      closing_balance := pyRound2 closing,
      total_credits := pyRound2 totalCredits,
      total_debits := pyRound2 totalDebits }

/-- The metadata block of `ExcelToJSONConverter._extract_metadata`, restricted
to the bank-name field; the account-number and IFSC regex extractions touch no
claim and are elided. -/
structure Metadata where
  bank_name : Option String
  deriving DecidableEq

def bankKeywords : List String :=
  ["HDFC", "ICICI", "SBI", "AXIS", "KOTAK", "YES BANK", "PNB", "BOB", "BANK OF"]

/-- The per-row text scanned by `_extract_metadata`:
`' '.join(str(val) for val in row if pd.notna(val))`. -/
def metadataRowText (row : List Value) : String :=
  String.intercalate " " ((row.filter (fun v => ¬ pdIsna v)).map pyStrDisp)

/-- `ExcelToJSONConverter._extract_metadata`: scan only the rows strictly
above the header row (`for idx in range(header_row)`, here the first
`headerRow` rows of the grid) and substring-match the fixed bank-name list
against each row's uppercased text; the first matching bank of the first
matching row wins and is not overwritten. There is no fallback into
transaction rows. -/
def extractMetadata (grid : List (List Value)) (headerRow : Nat) : Metadata :=
  (grid.take headerRow).foldl
    (fun acc row =>
      let rowTextUpper := pyUpper (metadataRowText row)
      match acc.bank_name with
      | some _ => acc
      | Option.none =>
        match bankKeywords.find? (fun b => strContainsSub rowTextUpper b) with
        | some b => { bank_name := some b }
        | Option.none => acc)
    { bank_name := Option.none }

/-- A `ValidationError` entry (`validation_models.ValidationError`). The
human-readable message text and the free-form context dict are elided; the
context's `transaction_index` entry, which the claims reference, is kept as
`ctxIndex`. -/
structure VError where
  error_type : String
  severity : String
  field : Option String := Option.none
  expected : Option ℚ := Option.none
  actual : Option ℚ := Option.none
  ctxIndex : Option Nat := Option.none
  deriving DecidableEq

/-- A `ValidationWarning` entry (message and recommendation text elided). -/
structure VWarn where
  warning_type : String
  field : Option String := Option.none
  deriving DecidableEq

/-- `validation_models.ValidationResult`. -/
structure ValidationResult where
  validator_name : String
  status : String
  passed : Bool
  errors : List VError
  warnings : List VWarn
  deriving DecidableEq

/-- The result value each validator constructs before running its checks. -/
def initResult (name : String) : ValidationResult :=
  ⟨name, "passed", true, [], []⟩

/-- `ValidationResult.add_error`: append the error, clear `passed`, and set
`status` to `"failed"` only when it still reads `"passed"`. -/
def addError (r : ValidationResult) (e : VError) : ValidationResult :=
  { r with errors := r.errors ++ [e], passed := false,
           status := if r.status = "passed" then "failed" else r.status }

/-- `ValidationResult.add_warning`: append the warning and set `status` to
`"warnings"` only when it still reads `"passed"`. -/
def addWarning (r : ValidationResult) (w : VWarn) : ValidationResult :=
  { r with warnings := r.warnings ++ [w],
           status := if r.status = "passed" then "warnings" else r.status }

/-- One mutation of a `ValidationResult`: an `add_error` or an `add_warning`
call. -/
inductive VOp where
  | err (e : VError)
  | warn (w : VWarn)
  deriving DecidableEq

/-- A sequence of `add_error`/`add_warning` calls applied in order. -/
def applyOps (r : ValidationResult) (ops : List VOp) : ValidationResult :=
  ops.foldl
    (fun acc op =>
      match op with
      | .err e => addError acc e
      | .warn w => addWarning acc w) r

/-- A transaction dictionary as the balance validator reads it
(`Option.none` on the outside means the key is absent). -/
structure TxnData where
  date : Option Value := Option.none
  description : Option Value := Option.none
  debit : Option Value := Option.none
  credit : Option Value := Option.none
  balance : Option Value := Option.none
  deriving DecidableEq

/-- A statement dictionary as the balance validator reads it; an absent
`transactions` key is modelled as the empty list, matching
`statement_data.get('transactions', [])`. -/
structure StmtData where
  opening_balance : Option Value := Option.none
  closing_balance : Option Value := Option.none
  total_credits : Option Value := Option.none
  total_debits : Option Value := Option.none
  transactions : List TxnData := []
  deriving DecidableEq

/-- `BalanceValidator._to_decimal`: `None` stays `None`; strings are cleaned
of commas, the (mojibake) rupee marker and dollar signs, then fed to
`Decimal(str(value))` and quantized to two places half-up. On a string that
is no decimal literal, `Decimal` raises `decimal.InvalidOperation`, which the
`except (ValueError, TypeError)` clause does NOT catch, so it escapes; the
same happens to `Decimal(str(ts))` for a timestamp value. Literal parsing of
`Decimal` coincides with `float` on the plain decimal forms modelled by
`pyFloatParse`. -/
def toDecimal (v : Value) : Except PyErr (Option ℚ) :=
  match v with
  | .vnone => .ok Option.none
  | .num q => .ok (some (quantize2 q))
  | .dt _ => .error .invalidOperation
  | .str s =>
      let s1 := pyStrip (pyReplace (pyReplace (pyReplace s "," "") "â‚¹" "") "$" "")
      match pyFloatParse s1 with
      | some q => .ok (some (quantize2 q))
      | Option.none => .error .invalidOperation

/-- `BalanceValidator._validate_opening_closing`. The whole body sits in a
`try`: any exception (an unparsable string in one of the four fields, or the
`TypeError` from adding `None` in the expected-closing arithmetic) becomes a
`calculation_error` with severity error. -/
def validateOpeningClosing (tol : ℚ) (sd : StmtData) (r : ValidationResult) :
    ValidationResult :=
  let body : Except PyErr ValidationResult := do
    let opening ← toDecimal (sd.opening_balance.getD .vnone)
    let closing ← toDecimal (sd.closing_balance.getD .vnone)
    let totalCredits ← toDecimal (sd.total_credits.getD (.num 0))
    let totalDebits ← toDecimal (sd.total_debits.getD (.num 0))
    match opening, closing with
    | some o, some c =>
      match totalCredits, totalDebits with
      | some tc, some td =>
        let expected := o + tc - td
        let difference := |c - expected|
        if difference > tol then
          pure (addError r { error_type := "balance_mismatch", severity := "error",
                             field := some "closing_balance",
                             expected := some expected, actual := some c })
        else if difference > 0 then
          pure (addWarning r { warning_type := "minor_balance_difference",
                               field := some "closing_balance" })
        else pure r
      | _, _ => Except.error PyErr.typeError
    | _, _ =>
      pure (addError r { error_type := "missing_balance", severity := "error",
                         field := some "opening_balance/closing_balance" })
  match body with
  | .ok r2 => r2
  | .error _ => addError r { error_type := "calculation_error", severity := "error" }

/-- The expected-balance computation inside the transaction loop of
`BalanceValidator._validate_transaction_balances`: `running + credit` when
`credit > 0` — the debit is not consulted at all in that branch — and
`running - debit` otherwise. Comparing `None > 0` or subtracting `None`
raises `TypeError`. -/
def expectedBalance (running : ℚ) (credit debit : Option ℚ) : Except PyErr ℚ :=
  match credit with
  | Option.none => Except.error PyErr.typeError
  | some c =>
    if c > 0 then .ok (running + c)
    else
      match debit with
      | Option.none => Except.error PyErr.typeError
      | some d => .ok (running - d)

/-- `transaction.get('description', '')[:50]` when building error context: an
absent key defaults to `''`; slicing a present non-string raises
`TypeError`. -/
def slice50 (v : Option Value) : Except PyErr String :=
  match v with
  | Option.none => .ok ""
  | some (.str s) => .ok (s.take 50)
  | some _ => Except.error PyErr.typeError

/-- The body of the transaction loop in
`BalanceValidator._validate_transaction_balances`. The whole body sits in a
`try`: any exception becomes a `calculation_error` entry added through
`add_error` with severity `warning`, with the running balance left
unchanged. On a divergence beyond tolerance an error is recorded and the
running balance is likewise left unchanged; the stated balance is adopted
only when it lies within tolerance, and the computed value is carried
forward only when no balance is stated. -/
def txnStep (tol : ℚ) (acc : ℚ × ValidationResult) (idx : Nat) (t : TxnData) :
    ℚ × ValidationResult :=
  let running := acc.1
  let r := acc.2
  let body : Except PyErr (ℚ × ValidationResult) := do
    let debit ← toDecimal (t.debit.getD (.num 0))
    let credit ← toDecimal (t.credit.getD (.num 0))
    let stated ← toDecimal (t.balance.getD .vnone)
    let expected ← expectedBalance running credit debit
    match stated with
    | some s =>
      let difference := |s - expected|
      if difference > tol then do
        let _ ← slice50 t.description
        let _ ← match debit with
                | some d => Except.ok d
                | Option.none => Except.error PyErr.typeError
        pure (running,
          addError r { error_type := "balance_mismatch", severity := "error",
                       field := some ("transactions[" ++ toString idx ++ "].balance"),
                       expected := some expected, actual := some s,
                       ctxIndex := some idx })
      else pure (s, r)
    | Option.none => pure (expected, r)
  match body with
  | .ok p => p
  | .error _ =>
      (running,
       addError r { error_type := "calculation_error", severity := "warning",
                    field := some ("transactions[" ++ toString idx ++ "]") })

/-- `BalanceValidator._validate_transaction_balances`: warn and stop on an
empty transaction list, stop silently when the opening balance is missing,
else walk the transactions with `txnStep` seeded at the opening balance.
The initial `_to_decimal(statement_data.get('opening_balance'))` sits outside
any `try`, so its exception escapes the method. -/
def validateTransactionBalances (tol : ℚ) (sd : StmtData) (r : ValidationResult) :
    Except PyErr ValidationResult := do
  match sd.transactions with
  | [] => pure (addWarning r { warning_type := "no_transactions" })
  | t0 :: rest => do
    let opening ← toDecimal (sd.opening_balance.getD .vnone)
    match opening with
    | Option.none => pure r
    | some ob =>
      pure (((t0 :: rest).enum.foldl (fun acc p => txnStep tol acc p.1 p.2) (ob, r)).2)

/-- Python's `sum(self._to_decimal(t.get(key, 0)) for t in transactions)`:
left to right starting from `0`, raising `TypeError` at the first `None`
summand. -/
def sumDecimals (vs : List (Option Value)) : Except PyErr ℚ :=
  vs.foldlM
    (fun acc v => do
      let d ← toDecimal (v.getD (.num 0))
      match d with
      | some q => pure (acc + q)
      | Option.none => Except.error PyErr.typeError)
    (0 : ℚ)

/-- `BalanceValidator._validate_totals`. This check has no `try`/`except` of
its own: an unparsable stated total or transaction amount raises out of the
method. -/
def validateTotals (tol : ℚ) (sd : StmtData) (r : ValidationResult) :
    Except PyErr ValidationResult := do
  match sd.transactions with
  | [] => pure r
  | t0 :: rest => do
    let ts := t0 :: rest
    let statedCredits ← toDecimal (sd.total_credits.getD .vnone)
    let statedDebits ← toDecimal (sd.total_debits.getD .vnone)
    let actualCredits ← sumDecimals (ts.map (fun t => t.credit))
    let actualDebits ← sumDecimals (ts.map (fun t => t.debit))
    let r1 :=
      match statedCredits with
      | some sc =>
        if |sc - actualCredits| > tol then
          addError r { error_type := "calculation_error", severity := "error",
                       field := some "total_credits",
                       expected := some actualCredits, actual := some sc }
        else r
      | Option.none => r
    let r2 :=
      match statedDebits with
      | some sdb =>
        if |sdb - actualDebits| > tol then
          addError r1 { error_type := "calculation_error", severity := "error",
                        field := some "total_debits",
                        expected := some actualDebits, actual := some sdb }
        else r1
      | Option.none => r1
    pure r2

/-- `BalanceValidator.validate_statement` at the given tolerance: the three
checks in order. Only `_validate_opening_closing` is fully wrapped in its own
`try`/`except`; exceptions escaping the other two checks escape the
method. -/
def validateStatement (tol : ℚ) (sd : StmtData) : Except PyErr ValidationResult := do
  let r0 := initResult "balance_validator"
  let r1 := validateOpeningClosing tol sd r0
  let r2 ← validateTransactionBalances tol sd r1
  validateTotals tol sd r2

/-- Assembly of the converter output into the dictionary handed to the
validators (`{**metadata, **summary, "transactions": ..., "number_of_transactions": ...}`),
restricted to the keys the balance validator reads. -/
def toStmtData (s : Summary) (txns : List Txn) : StmtData :=
  { opening_balance := some (.num s.opening_balance),
    closing_balance := some (.num s.closing_balance),
    total_credits := some (.num s.total_credits),
    total_debits := some (.num s.total_debits),
    transactions := txns.map (fun t =>
      { date := some (.str t.date), description := some (.str t.description),
        debit := some (.num t.debit), credit := some (.num t.credit),
        balance := some (.num t.balance) }) }

/-- Modelled from the spec: the balance-column cell parse as the
specification describes it — "non-numeric/empty → null (balance column)".
It mirrors `parseAmount`'s cleaning but yields `Option.none` instead of
`0.0` on empty or non-numeric input, for comparison with the source's
`parseAmount`. -/
def specBalanceParse (v : Value) : Option ℚ :=
  match v with
  | .vnone => Option.none
  | .num q => some q
  | .dt _ => Option.none
  | .str s =>
      let s2 := cleanAmountStr s
      if s2 = "" then Option.none else pyFloatParse s2

/-- The transaction a row contributes, if any. -/
def emittedRow (m : ColumnMapping) (row : List Value) : Option Txn :=
  match processRow m row with
  | .emit t => some t
  | _ => Option.none

/-- Whether a row's outcome is the given (skip) outcome. -/
def skipKind (m : ColumnMapping) (k : RowOutcome) (row : List Value) : Bool :=
  processRow m row == k

/-- The spec's round-trip grid with the second row's stated balance changed
from 13000 to 9000. -/
def c3Grid : List (List Value) :=
  [[.str "Date", .str "Narration", .str "Debit", .str "Credit", .str "Balance"],
   [.str "01-01-2024", .str "Salary", .num 0, .num 5000, .num 15000],
   [.str "02-01-2024", .str "ATM", .num 2000, .num 0, .num 9000]]

/-- Extraction run on `c3Grid`: structure detection, transaction extraction
below the header, summary calculation, then assembly of the validator
input. -/
def c3Stmt : StmtData :=
  let p := identifyStructure c3Grid
  let ex := extractTransactions (c3Grid.drop (p.1 + 1)) p.2
  toStmtData (calculateSummary ex.1) ex.1

/-- The balance validator (default tolerance 0.01) run on the statement
extracted from `c3Grid`. -/
def c3Result : Except PyErr ValidationResult :=
  validateStatement (1 / 100) c3Stmt

/-- A statement record whose only transaction carries a non-numeric credit
field — `{'transactions': [{'credit': 'abc'}]}`. -/
def c5Stmt : StmtData :=
  { transactions := [{ credit := some (.str "abc") }] }

/-- A grid whose only mention of a known bank name sits inside a transaction
description, with the header on row 0 (so no rows lie above it). -/
def c7Grid : List (List Value) :=
  [[.str "Date", .str "Narration", .str "Debit", .str "Credit", .str "Balance"],
   [.str "01-01-2024", .str "UPI-HDFC BANK-403993", .num 0, .num 5000, .num 15000]]

/-- A transaction stating a balance of 200 where the expected balance is 150:
credit 50 against a running balance of 100, divergence 50 beyond any small
tolerance. -/
def c1Txn : TxnData :=
  { credit := some (.num 50), debit := some (.num 0), balance := some (.num 200) }

deriving instance DecidableEq for Except

/-- The source's `_parse_amount` agrees with the spec-modelled balance parse
wherever the latter yields a number, and collapses its `null` to `0.0`. -/
lemma parseAmount_vs_spec (v : Value) :
    parseAmount v = (specBalanceParse v).getD 0 := by
  cases v with
  | vnone => rfl
  | num q => rfl
  | dt d => rfl
  | str s =>
      simp only [parseAmount, specBalanceParse]
      generalize cleanAmountStr s = s2
      split
      · rfl
      · cases hp : pyFloatParse s2 <;> simp [hp]

/-- Every transaction emitted by the row processor carries the
`transaction_type` derived from its own credit amount. -/
lemma processRow_emit_type {m : ColumnMapping} {row : List Value} {t : Txn}
    (h : processRow m row = .emit t) :
    t.transaction_type = if 0 < t.credit then "credit" else "debit" := by
  simp only [processRow] at h
  split at h
  · exact absurd h (by simp)
  · split at h
    · exact absurd h (by simp)
    · split at h
      · exact absurd h (by simp)
      · simp only [RowOutcome.emit.injEq] at h
        subst h
        rfl

/-- The transaction list built by the extraction fold is the accumulator
followed by the rows' emissions in order. -/
lemma foldl_extractStep_fst (m : ColumnMapping) :
    ∀ (rows : List (List Value)) (acc : List Txn × SkipTally),
      (rows.foldl (extractStep m) acc).1 = acc.1 ++ rows.filterMap (emittedRow m)
  | [], acc => by simp
  | row :: rest, acc => by
      rw [List.foldl_cons, foldl_extractStep_fst m rest]
      cases h : processRow m row <;>
        simp [extractStep, emittedRow, h]

/-- Every processed row lands in exactly one bucket: emitted transactions and
the three skip tallies add up to the row count. -/
lemma foldl_extractStep_len (m : ColumnMapping) :
    ∀ (rows : List (List Value)) (acc : List Txn × SkipTally),
      (rows.foldl (extractStep m) acc).1.length
        + (rows.foldl (extractStep m) acc).2.empty_row
        + (rows.foldl (extractStep m) acc).2.no_date
        + (rows.foldl (extractStep m) acc).2.parse_fail
      = acc.1.length + acc.2.empty_row + acc.2.no_date + acc.2.parse_fail + rows.length
  | [], acc => by simp
  | row :: rest, acc => by
      rw [List.foldl_cons, foldl_extractStep_len m rest (extractStep m acc row)]
      cases h : processRow m row <;> simp [extractStep, h] <;> omega

/-- Extraction folds with row-wise equal processors coincide. -/
lemma foldl_extractStep_congr {m1 m2 : ColumnMapping}
    (hrow : ∀ row, processRow m1 row = processRow m2 row) :
    ∀ (rows : List (List Value)) (acc : List Txn × SkipTally),
      rows.foldl (extractStep m1) acc = rows.foldl (extractStep m2) acc
  | [], _ => rfl
  | row :: rest, acc => by
      rw [List.foldl_cons, List.foldl_cons]
      rw [show extractStep m1 acc row = extractStep m2 acc row by
            simp [extractStep, hrow row]]
      exact foldl_extractStep_congr hrow rest _

/-- With no date column mapped, the row processor behaves exactly as if
column 0 had been mapped as the date column. -/
lemma processRow_date_none {m : ColumnMapping} (hm : m.date = Option.none)
    (row : List Value) :
    processRow m row = processRow { m with date := some 0 } row := by
  simp [processRow, hm]

/-- C1 (counterexample): at tolerance 0.01 with running balance 100, a
transaction of credit 50 stating balance 200 (expected 150, divergence 50
beyond tolerance) does make the loop body record a `balance_mismatch` error,
but the running balance it returns for the next transaction is the old 100,
not the stated 200 — the claimed resynchronization to the stated value does
not happen. -/
theorem c1_counterexample :
    (txnStep (1 / 100) (100, initResult "balance_validator") 0 c1Txn).2.errors.map
        (fun e => e.error_type) = ["balance_mismatch"] ∧
    toDecimal (c1Txn.balance.getD .vnone) = .ok (some 200) ∧
    (txnStep (1 / 100) (100, initResult "balance_validator") 0 c1Txn).1 = 100 ∧
    (100 : ℚ) ≠ 200 := by decide

/-- C1 (amended): in `BalanceValidator._validate_transaction_balances`, for a
transaction whose debit, credit and stated balance all parse, when the stated
balance diverges from the expected balance beyond tolerance an error is
recorded and the running balance is left unchanged at its pre-transaction
value; the stated balance is adopted only when the divergence is within
tolerance, and the computed value is carried forward only when no balance is
stated — so a bad row does affect the expected balances computed for the
rows after it. -/
theorem c1_amended (tol running : ℚ) (r : ValidationResult) (idx : Nat) (t : TxnData)
    (d c e : ℚ) (ds : String)
    (hd : toDecimal (t.debit.getD (.num 0)) = .ok (some d))
    (hc : toDecimal (t.credit.getD (.num 0)) = .ok (some c))
    (he : expectedBalance running (some c) (some d) = .ok e)
    (hds : slice50 t.description = .ok ds) :
    (∀ s, toDecimal (t.balance.getD .vnone) = .ok (some s) → |s - e| > tol →
        txnStep tol (running, r) idx t =
          (running,
           addError r { error_type := "balance_mismatch", severity := "error",
                        field := some ("transactions[" ++ toString idx ++ "].balance"),
                        expected := some e, actual := some s, ctxIndex := some idx })) ∧
    (∀ s, toDecimal (t.balance.getD .vnone) = .ok (some s) → ¬ |s - e| > tol →
        txnStep tol (running, r) idx t = (s, r)) ∧
    (toDecimal (t.balance.getD .vnone) = .ok Option.none →
        txnStep tol (running, r) idx t = (e, r)) := by
  refine ⟨fun s hb hdiv => ?_, fun s hb hdiv => ?_, fun hb => ?_⟩
  · simp [txnStep, hd, hc, he, hds, hb, hdiv, bind, Except.bind, pure, Except.pure]
  · simp [txnStep, hd, hc, he, hds, hb, hdiv, bind, Except.bind, pure, Except.pure]
  · simp [txnStep, hd, hc, he, hds, hb, bind, Except.bind, pure, Except.pure]

/-- C1 (witness): the amended statement evaluated at the counterexample
transaction — error recorded, running balance kept at 100. -/
theorem c1_amended_witness :
    txnStep (1 / 100) (100, initResult "balance_validator") 0 c1Txn =
      (100,
       addError (initResult "balance_validator")
         { error_type := "balance_mismatch", severity := "error",
           field := some ("transactions[" ++ toString 0 ++ "].balance"),
           expected := some 150, actual := some 200, ctxIndex := some 0 }) :=
  (c1_amended (1 / 100) 100 (initResult "balance_validator") 0 c1Txn 0 50 150 ""
      (by decide) (by decide) (by decide) (by decide)).1 200 (by decide) (by decide)

/-- C2 (code bug): `ValidationResult.add_error` promotes `status` to
`"failed"` only from `"passed"`. After `add_warning` followed by `add_error`
the result holds one error and `passed = false`, yet `status` still reads
`"warnings"`, contradicting the documented rule (and the count-based rule
`AggregatedValidationResult.from_results` applies) that any error makes the
status `"failed"`. -/
theorem c2_code_bug :
    (applyOps (initResult "balance_validator")
        [.warn { warning_type := "minor_balance_difference" },
         .err { error_type := "balance_mismatch", severity := "error" }]).errors.length = 1 ∧
    (applyOps (initResult "balance_validator")
        [.warn { warning_type := "minor_balance_difference" },
         .err { error_type := "balance_mismatch", severity := "error" }]).passed = false ∧
    (applyOps (initResult "balance_validator")
        [.warn { warning_type := "minor_balance_difference" },
         .err { error_type := "balance_mismatch", severity := "error" }]).status = "warnings" := by
  decide

/-- C3 (counterexample): on the spec's two-row grid with the second stated
balance changed to 9000, the extraction-plus-validation pipeline does make
the opening/closing reconciliation check record an error — `closing_balance`
is extracted from the corrupted last row as 9000 while
`opening + credits - debits = 10000 + 5000 - 2000 = 13000` — so the claim
that this check reports no error is false. -/
theorem c3_counterexample :
    c3Result.map (fun r => (r.errors.filter (fun e => e.field = some "closing_balance")).length)
      = .ok 1 := by decide

/-- C3 (amended): the pipeline on that grid yields exactly two errors —
exactly one transaction-progression error, referencing index 1 (expected
13000, stated 9000), and one opening/closing reconciliation error (expected
13000, actual 9000), the latter because the extracted closing balance is the
corrupted stated balance of the last row; no warnings are recorded. -/
theorem c3_amended :
    c3Result = .ok
      { validator_name := "balance_validator", status := "failed", passed := false,
        errors := [{ error_type := "balance_mismatch", severity := "error",
                     field := some "closing_balance",
                     expected := some 13000, actual := some 9000 },
                   { error_type := "balance_mismatch", severity := "error",
                     field := some "transactions[1].balance",
                     expected := some 13000, actual := some 9000, ctxIndex := some 1 }],
        warnings := [] } := by decide

/-- C4 (counterexample): a row whose balance cell is empty is extracted with
balance `0.0` — a number, not the `null` the claim requires; the
spec-modelled balance parse of the same cell is `null`. -/
theorem c4_counterexample :
    (extractTransactions [[Value.str "01-01-2024", Value.num 5, Value.num 0, Value.vnone]]
        { date := some 0, debit := some 1, credit := some 2, balance := some 3 }).1.map
      (fun t => t.balance) = [0] ∧
    specBalanceParse Value.vnone = Option.none := by decide

/-- C4 (amended): an empty or non-numeric cell parses to `0.0` in the debit
and credit columns AND in the balance column — the extractor feeds all three
through the same `_parse_amount`, which never returns `null`; on numeric
cells the source parse and the spec-modelled balance parse agree. -/
theorem c4_amended (v : Value) :
    (specBalanceParse v = Option.none → parseAmount v = 0) ∧
    (∀ q, specBalanceParse v = some q → parseAmount v = q) := by
  rw [parseAmount_vs_spec v]
  constructor
  · intro h; rw [h]; rfl
  · intro q h; rw [h]; rfl

/-- C4 (witness): the amended statement at the empty cell. -/
theorem c4_amended_witness :
    parseAmount Value.vnone = 0 ∧ specBalanceParse Value.vnone = Option.none :=
  ⟨(c4_amended Value.vnone).1 (by decide), by decide⟩

/-- C5 (code bug): on the record `{'transactions': [{'credit': 'abc'}]}` the
balance validator raises instead of returning a result:
`_validate_totals` has no `try`/`except`, and `Decimal('abc')` inside
`_to_decimal` raises `decimal.InvalidOperation`, which the
`except (ValueError, TypeError)` clause does not catch. (The date validator
likewise raises — an `AttributeError` from `.strip()` — on a numeric
`description` field.) -/
theorem c5_code_bug :
    validateStatement (1 / 100) c5Stmt = .error .invalidOperation := by decide

/-- C6 (confirmed): every transaction emitted by the extractor, over any grid
and column mapping, has `transaction_type = "credit"` exactly when its
credit amount is positive, and `"debit"` otherwise. -/
theorem c6_confirmed (m : ColumnMapping) (rows : List (List Value)) (t : Txn)
    (ht : t ∈ (extractTransactions rows m).1) :
    (t.transaction_type = "credit" ↔ 0 < t.credit) ∧
    (t.transaction_type = "debit" ↔ ¬ 0 < t.credit) := by
  rw [extractTransactions, foldl_extractStep_fst] at ht
  simp only [List.nil_append, List.mem_filterMap] at ht
  obtain ⟨row, _, hrow⟩ := ht
  rw [emittedRow] at hrow
  have hshape : processRow m row = .emit t := by
    cases h : processRow m row <;> rw [h] at hrow <;> simp at hrow
    rw [hrow]
  have htype := processRow_emit_type hshape
  by_cases hc : 0 < t.credit
  · rw [if_pos hc] at htype
    simp [htype, hc]
  · rw [if_neg hc] at htype
    simp [htype, hc]

/-- C6 (witness): the invariant evaluated on the salary row of a concrete
grid, whose extracted transaction has credit 5000 and type `"credit"`. -/
theorem c6_confirmed_witness :
    ((⟨"2024-01-01", "Salary", 0, 5000, 15000, "credit", Option.none⟩ : Txn).transaction_type
        = "credit" ↔ 0 < (⟨"2024-01-01", "Salary", 0, 5000, 15000, "credit", Option.none⟩ : Txn).credit) ∧
    ((⟨"2024-01-01", "Salary", 0, 5000, 15000, "credit", Option.none⟩ : Txn).transaction_type
        = "debit" ↔ ¬ 0 < (⟨"2024-01-01", "Salary", 0, 5000, 15000, "credit", Option.none⟩ : Txn).credit) :=
  c6_confirmed
    { date := some 0, description := some 1, debit := some 2, credit := some 3, balance := some 4 }
    [[Value.str "01-01-2024", Value.str "Salary", Value.num 0, Value.num 5000, Value.num 15000]]
    ⟨"2024-01-01", "Salary", 0, 5000, 15000, "credit", Option.none⟩ (by decide)

/-- C7 (counterexample): in a grid whose header is row 0 and whose only
mention of a known bank name ("HDFC") sits inside a transaction description,
`_extract_metadata` leaves `bank_name` unset — there is no fallback search
of transaction description text, so the claim that `bank_name` is still
populated is false. -/
theorem c7_counterexample :
    (extractMetadata c7Grid (identifyStructure c7Grid).1).bank_name = Option.none ∧
    (identifyStructure c7Grid).1 = 0 ∧
    (extractTransactions (c7Grid.drop 1) (identifyStructure c7Grid).2).1.map
      (fun t => t.description) = ["UPI-HDFC BANK-403993"] ∧
    strContainsSub (pyUpper "UPI-HDFC BANK-403993") "HDFC" = true := by decide

/-- C7 (amended): `_extract_metadata` determines `bank_name` by substring
match of the fixed bank list against the rows strictly above the header row
only; rows at or below the header — the transaction rows — never influence
the metadata, so a bank name appearing only inside a transaction description
leaves `bank_name` null. (A full-text bank search exists only in the separate
LLM-failure fallback extractor, which the converter never invokes.) -/
theorem c7_amended (grid extra : List (List Value)) (headerRow : Nat)
    (h : headerRow ≤ grid.length) :
    extractMetadata (grid ++ extra) headerRow = extractMetadata grid headerRow := by
  unfold extractMetadata
  rw [List.take_append_of_le_length h]

/-- C7 (witness): appending a transaction row changes nothing about the
metadata extracted above header row 1. -/
theorem c7_amended_witness :
    1 ≤ ([[Value.str "HDFC Bank Statement"]] : List (List Value)).length ∧
    extractMetadata ([[Value.str "HDFC Bank Statement"]] ++ [[Value.str "Date"]]) 1 =
      extractMetadata [[Value.str "HDFC Bank Statement"]] 1 :=
  ⟨by decide, c7_amended [[Value.str "HDFC Bank Statement"]] [[Value.str "Date"]] 1 (by decide)⟩

/-- C8 (confirmed): the amount parser strips thousands separators and
currency symbols and treats parentheses as negation — the cell
`"(1,250.50)"` parses to `-1250.50` and `"₹12,000"` to `12000.0`. -/
theorem c8_confirmed :
    parseAmount (.str "(1,250.50)") = -(1250.5 : ℚ) ∧
    parseAmount (.str "₹12,000") = (12000 : ℚ) := by decide

/-- C9 (confirmed): when no date column was mapped, the extractor reads the
date from column index 0 — the run is identical to one with column 0 mapped
as the date column; a non-empty row whose first cell is `NaN` is skipped as
`no_date`, one whose first cell does not parse as a date is skipped as
`parse_fail`; a row is emitted exactly when its first cell parses as a date
(carried into the transaction); and every row is either emitted or counted
in exactly one skip tally. -/
theorem c9_confirmed (m : ColumnMapping) (rows : List (List Value))
    (hm : m.date = Option.none) :
    extractTransactions rows m = extractTransactions rows { m with date := some 0 } ∧
    (∀ row, row.all (fun v => pdIsna v) = false → pdIsna (cellAt row 0) = true →
        processRow m row = .skipNoDate) ∧
    (∀ row, row.all (fun v => pdIsna v) = false → pdIsna (cellAt row 0) = false →
        parseDate (cellAt row 0) = Option.none → processRow m row = .skipParseFail) ∧
    (∀ row t, processRow m row = .emit t →
        row.all (fun v => pdIsna v) = false ∧ parseDate (cellAt row 0) = some t.date) ∧
    (∀ row d, row.all (fun v => pdIsna v) = false → parseDate (cellAt row 0) = some d →
        ∃ t, processRow m row = .emit t ∧ t.date = d) ∧
    ((extractTransactions rows m).1.length + (extractTransactions rows m).2.empty_row
        + (extractTransactions rows m).2.no_date + (extractTransactions rows m).2.parse_fail
      = rows.length) := by
  refine ⟨?_, ?_, ?_, ?_, ?_, ?_⟩
  · exact foldl_extractStep_congr (processRow_date_none hm) rows ([], {})
  · intro row hall his
    simp [processRow, hm, hall, his]
  · intro row hall his hparse
    simp [processRow, hm, hall, his, hparse]
  · intro row t h
    simp only [processRow, hm] at h
    by_cases hall : row.all (fun v => pdIsna v) = true
    · simp [hall] at h
    · rw [Bool.not_eq_true] at hall
      refine ⟨hall, ?_⟩
      by_cases his : pdIsna (cellAt row 0) = true
      · simp [hall, his] at h
      · rw [Bool.not_eq_true] at his
        cases hpd : parseDate (cellAt row 0) with
        | none => simp [hall, his, hpd] at h
        | some pd =>
            simp only [Option.getD_none, hall, his, hpd, Bool.false_eq_true, if_false,
              RowOutcome.emit.injEq] at h
            subst h
            rfl
  · intro row d hall hparse
    have his : pdIsna (cellAt row 0) = false := by
      cases hv : cellAt row 0 <;> simp_all [pdIsna, parseDate]
    simp [processRow, hm, hall, his, hparse]
  · have hlen := foldl_extractStep_len m rows ([], {})
    simpa [extractTransactions] using hlen

/-- C9 (witness): with no date role mapped, a one-row grid is extracted
exactly as with an explicit date column 0. -/
theorem c9_confirmed_witness :
    extractTransactions [[Value.str "05-01-2024"]] ({} : ColumnMapping) =
      extractTransactions [[Value.str "05-01-2024"]]
        { ({} : ColumnMapping) with date := some 0 } :=
  (c9_confirmed {} [[Value.str "05-01-2024"]] rfl).1

/-- C10 (confirmed): in the progression check's expected-balance computation,
a transaction with positive credit contributes `running + credit` and its
debit is ignored entirely (the result is the same whatever the debit parse,
even an absent one); for a non-negative credit the debit is subtracted only
when the credit equals 0. -/
theorem c10_confirmed (running c d : ℚ) (hc : 0 ≤ c) :
    (0 < c → ∀ dbt : Option ℚ, expectedBalance running (some c) dbt = .ok (running + c)) ∧
    (¬ 0 < c → c = 0 ∧ expectedBalance running (some c) (some d) = .ok (running - d)) := by
  constructor
  · intro hpos dbt
    simp [expectedBalance, hpos]
  · intro hneg
    exact ⟨le_antisymm (not_lt.mp hneg) hc, by simp [expectedBalance, hneg]⟩

/-- C10 (witness): credit 5 against running balance 100 gives expected 105
whether the debit parses to 3 or is absent. -/
theorem c10_confirmed_witness :
    expectedBalance 100 (some 5) (some 3) = .ok (100 + 5) ∧
    expectedBalance 100 (some 5) Option.none = .ok (100 + 5) :=
  ⟨(c10_confirmed 100 5 3 (by norm_num)).1 (by norm_num) (some 3),
   (c10_confirmed 100 5 3 (by norm_num)).1 (by norm_num) Option.none⟩
